import Mathlib

/-!
Shallow embedding of `src/packages/polyfills-loader/src/createPolyfillsData.ts`.

The source is a single async function `createPolyfillsData` that, given a
`PolyfillsLoaderConfig`, first builds an ordered list of `PolyfillConfig`
entries from per-polyfill flags (pure decision logic) and then materializes
each entry into a `PolyfillFile` by reading its source file(s), stripping
source-map reference lines, concatenating, optionally minifying with Terser,
and computing a content-addressed output path.

External collaborators (the file system seen through `require.resolve`d
specifiers, `Terser.minify`, and the `createContentHash` hasher from `utils`)
are passed explicitly as a `MaterializeCtx`.  `require.resolve` itself is
modelled as the identity on the module specifier: the file-system collaborator
maps specifiers to file contents.  A handful of helpers from `utils`
(`fileTypes`, `noModuleSupportTest`, `hasFileOfType`) are imported by the
source file but are not part of `src/`; they are modelled from the spec and
marked as such on their doc comments.
-/

set_option autoImplicit false

/-- Modelled from the spec: the `fileTypes` constants from `utils` (not in
`src/`).  Per §3/§4.1 there is at least a generic script category and a
module-loader (`systemjs`) category; the `module` and `es-module-shims`
categories also exist in `utils` but are not consulted by this file. -/
inductive FileType
  | script
  | module
  | esModuleShims
  | systemjs
deriving DecidableEq

/-- A declared output file descriptor.  Only its `type` field is consulted by
`createPolyfillsData` (through `hasFileOfType` and the systemjs
`alwaysLoad` check), so only that field is modelled. -/
structure OutputFile where
  type : FileType
deriving DecidableEq

/-- One legacy output configuration entry: its own browser feature test and
its declared output files. -/
structure LegacyEntry where
  test : String
  files : List OutputFile
deriving DecidableEq

/-- The modern output configuration: its declared output files. -/
structure ModernConfig where
  files : List OutputFile
deriving DecidableEq

/-- The `path` property of a polyfill config: `string | string[]` in the
source.  JavaScript truthiness distinguishes these cases: an empty string is
falsy while any array (even an empty one) is truthy. -/
inductive PolyfillPath
  | single (p : String)
  | multi (ps : List String)
deriving DecidableEq

/-- A polyfill specification (the `PolyfillConfig` type from `types.ts`).
`name := ""` and `path := none` model an absent (undefined) property: for the
runtime truthiness checks in the materialization loop an undefined `name` and
an empty-string `name` behave identically. -/
structure PolyfillConfig where
  name : String := ""
  path : Option PolyfillPath := none
  test : Option String := none
  initializer : Option String := none
  minify : Bool := false
  fileType : Option FileType := none
deriving DecidableEq

/-- A flag that is `boolean | 'always'` in the source (`esModuleShims`,
`regeneratorRuntime`): `off` models `false`/undefined (falsy), `on` models
`true`, `always` models the string literal `'always'` (both truthy). -/
inductive BoolAlways
  | off
  | on
  | always
deriving DecidableEq

/-- JavaScript truthiness of a `boolean | 'always'` flag value. -/
def BoolAlways.truthy : BoolAlways → Bool
  | .off => false
  | .on => true
  | .always => true

/-- The `polyfills` section of the loader config.  Field defaults model the
absent (undefined) properties of the empty object `{}`. -/
structure PolyfillsConfig where
  coreJs : Bool := false
  URLPattern : Bool := false
  esModuleShims : BoolAlways := .off
  constructibleStylesheets : Bool := false
  regeneratorRuntime : BoolAlways := .off
  fetch : Bool := false
  abortController : Bool := false
  systemjs : Bool := false
  systemjsExtended : Bool := false
  dynamicImport : Bool := false
  intersectionObserver : Bool := false
  resizeObserver : Bool := false
  scopedCustomElementRegistry : Bool := false
  webcomponents : Bool := false
  shadyCssCustomStyle : Bool := false
  hash : Option Bool := none
  custom : List PolyfillConfig := []
deriving DecidableEq

/-- The parts of `PolyfillsLoaderConfig` consulted by `createPolyfillsData`:
the `polyfills` section, the declared `modern`/`legacy` outputs (used only to
decide systemjs inclusion and its test), and the output directory. -/
structure PolyfillsLoaderConfig where
  polyfills : Option PolyfillsConfig := none
  modern : Option ModernConfig := none
  legacy : Option (List LegacyEntry) := none
  polyfillsDir : Option String := none
deriving DecidableEq

/-- The final artifact record (the `PolyfillFile` type from `types.ts`). -/
structure PolyfillFile where
  name : String
  type : FileType
  path : String
  content : String
  test : Option String
  initializer : Option String
deriving DecidableEq

/-- The external collaborators used by the materialization phase.
`fs spec = some content` iff the specifier resolves to an existing regular
file with that content (`fs.existsSync`/`statSync().isFile()`/`readFileSync`);
`minify` models `Terser.minify`, whose promise resolves with minified code or
rejects with an error; `hash` models `createContentHash` from `utils` (not in
`src/`), the content hasher collaborator of spec §6. -/
structure MaterializeCtx where
  fs : String → Option String
  minify : String → Except String String
  hash : String → String

/-- `const { polyfills = {} } = cfg`. -/
def polyfillsOf (cfg : PolyfillsLoaderConfig) : PolyfillsConfig :=
  cfg.polyfills.getD {}

/-- Modelled from the spec: the `noModuleSupportTest` expression from `utils`
(not in `src/`), the "no ES module support" feature test of §4.1. -/
def noModuleSupportTest : String :=
  "!(\x27noModule\x27 in HTMLScriptElement.prototype)"

/-- Modelled from the spec: `hasFileOfType` from `utils` (not in `src/`).
Per §4.1/§6 it reports whether at least one declared modern or legacy output
file descriptor has the given file type. -/
def hasFileOfType (cfg : PolyfillsLoaderConfig) (t : FileType) : Bool :=
  (match cfg.modern with
    | none => false
    | some m => m.files.any fun f => f.type == t) ||
  (match cfg.legacy with
    | none => false
    | some es => es.any fun e => e.files.any fun f => f.type == t)

/-- Module specifier of `require.resolve('core-js-bundle/minified.js')`. -/
def coreJsPath : String := "core-js-bundle/minified.js"

/-- Module specifier of `require.resolve('urlpattern-polyfill')`. -/
def urlPatternPath : String := "urlpattern-polyfill"

/-- Module specifier of `require.resolve('es-module-shims')`. -/
def esModuleShimsPath : String := "es-module-shims"

/-- Module specifier of `require.resolve('construct-style-sheets-polyfill')`. -/
def constructibleStylesheetsPath : String := "construct-style-sheets-polyfill"

/-- Module specifier of `require.resolve('regenerator-runtime/runtime')`. -/
def regeneratorRuntimePath : String := "regenerator-runtime/runtime"

/-- Module specifier of `require.resolve('whatwg-fetch/dist/fetch.umd.js')`. -/
def whatwgFetchPath : String := "whatwg-fetch/dist/fetch.umd.js"

/-- Module specifier of
`require.resolve('abortcontroller-polyfill/dist/umd-polyfill.js')`. -/
def abortControllerPolyfillPath : String := "abortcontroller-polyfill/dist/umd-polyfill.js"

/-- Module specifier of `require.resolve('systemjs/dist/system.min.js')`. -/
def systemjsFullPath : String := "systemjs/dist/system.min.js"

/-- Module specifier of `require.resolve('systemjs/dist/s.min.js')`. -/
def systemjsMinPath : String := "systemjs/dist/s.min.js"

/-- Module specifier of
`require.resolve('dynamic-import-polyfill/dist/dynamic-import-polyfill.umd.js')`. -/
def dynamicImportPath : String := "dynamic-import-polyfill/dist/dynamic-import-polyfill.umd.js"

/-- Module specifier of
`require.resolve('intersection-observer/intersection-observer.js')`. -/
def intersectionObserverPath : String := "intersection-observer/intersection-observer.js"

/-- Module specifier of
`require.resolve('resize-observer-polyfill/dist/ResizeObserver.global.js')`. -/
def resizeObserverPath : String := "resize-observer-polyfill/dist/ResizeObserver.global.js"

/-- Module specifier of the scoped custom element registry polyfill. -/
def scopedCustomElementRegistryPath : String :=
  "@webcomponents/scoped-custom-element-registry/scoped-custom-element-registry.min.js"

/-- Module specifier of
`require.resolve('@webcomponents/webcomponentsjs/webcomponents-bundle.js')`. -/
def webcomponentsBundlePath : String := "@webcomponents/webcomponentsjs/webcomponents-bundle.js"

/-- Module specifier of
`require.resolve('@webcomponents/webcomponentsjs/custom-elements-es5-adapter.js')`. -/
def customElementsEs5AdapterPath : String :=
  "@webcomponents/webcomponentsjs/custom-elements-es5-adapter.js"

/-- Module specifier of
`require.resolve('@webcomponents/shadycss/custom-style-interface.min.js')`. -/
def shadyCssCustomStyleInterfacePath : String :=
  "@webcomponents/shadycss/custom-style-interface.min.js"

/-- Module specifier of
`require.resolve('shady-css-scoped-element/shady-css-scoped-element.min.js')`. -/
def shadyCssScopedElementPath : String :=
  "shady-css-scoped-element/shady-css-scoped-element.min.js"

/-- The `if (polyfills.coreJs)` block. -/
def coreJsConfigs (p : PolyfillsConfig) : List PolyfillConfig :=
  if p.coreJs then
    [{ name := "core-js", path := some (.single coreJsPath), test := some noModuleSupportTest }]
  else []

/-- The `if (polyfills.URLPattern)` block. -/
def urlPatternConfigs (p : PolyfillsConfig) : List PolyfillConfig :=
  if p.URLPattern then
    [{ name := "urlpattern-polyfill", test := some "\x22URLPattern\x22 in window",
       path := some (.single urlPatternPath) }]
  else []

/-- The `if (polyfills.esModuleShims)` block:
`test: polyfills.esModuleShims !== 'always' ? '1' : undefined`. -/
def esModuleShimsConfigs (p : PolyfillsConfig) : List PolyfillConfig :=
  if p.esModuleShims.truthy then
    [{ name := "es-module-shims",
       test := if p.esModuleShims ≠ BoolAlways.always then some "1" else none,
       path := some (.single esModuleShimsPath) }]
  else []

/-- The `if (polyfills.constructibleStylesheets)` block. -/
def constructibleStylesheetsConfigs (p : PolyfillsConfig) : List PolyfillConfig :=
  if p.constructibleStylesheets then
    [{ name := "constructible-style-sheets-polyfill",
       test := some "!(\x22adoptedStyleSheets\x22 in document)",
       path := some (.single constructibleStylesheetsPath) }]
  else []

/-- The `if (polyfills.regeneratorRuntime)` block. -/
def regeneratorRuntimeConfigs (p : PolyfillsConfig) : List PolyfillConfig :=
  if p.regeneratorRuntime.truthy then
    [{ name := "regenerator-runtime",
       test := if p.regeneratorRuntime ≠ BoolAlways.always then some noModuleSupportTest else none,
       path := some (.single regeneratorRuntimePath) }]
  else []

/-- The fetch test expression, a template literal whose second clause is
present exactly when `polyfills.abortController` is truthy. -/
def fetchTest (p : PolyfillsConfig) : String :=
  "!(\x27fetch\x27 in window)" ++
    (if p.abortController then
      " || !(\x27Request\x27 in window) || !(\x27signal\x27 in window.Request.prototype)"
    else "")

/-- The `if (polyfills.fetch)` block: the path is a two-element array (fetch
shim then AbortController shim) when `abortController` is set, otherwise a
one-element array; `minify: true` in both cases. -/
def fetchConfigs (p : PolyfillsConfig) : List PolyfillConfig :=
  if p.fetch then
    [{ name := "fetch", test := some (fetchTest p),
       path := some (if p.abortController then
          .multi [whatwgFetchPath, abortControllerPolyfillPath]
        else
          .multi [whatwgFetchPath]),
       minify := true }]
  else []

/-- `cfg.modern && cfg.modern.files && cfg.modern.files.some(f => f.type === fileTypes.SYSTEMJS)`. -/
def systemjsAlwaysLoad (cfg : PolyfillsLoaderConfig) : Bool :=
  match cfg.modern with
  | none => false
  | some m => m.files.any fun f => f.type == FileType.systemjs

/-- `alwaysLoad || !cfg.legacy ? undefined : cfg.legacy.map(e => e.test).join(' || ')`.
Note that an empty legacy array is truthy in JavaScript, so `legacy = some []`
produces the empty joined test, not an absent one. -/
def systemjsTest (cfg : PolyfillsLoaderConfig) : Option String :=
  if systemjsAlwaysLoad cfg then none
  else
    match cfg.legacy with
    | none => none
    | some es => some (String.intercalate " || " (es.map fun e => e.test))

/-- The systemjs block: included when the `systemjs` or `systemjsExtended`
flag is set, or when no custom entry is already named `systemjs` and some
declared output file has the systemjs type.  The extended variant resolves
the full `system.min.js` bundle, the plain variant `s.min.js`. -/
def systemjsConfigs (cfg : PolyfillsLoaderConfig) (p : PolyfillsConfig) : List PolyfillConfig :=
  let hasSystemJs := p.custom.any fun c => c.name == "systemjs"
  if p.systemjs || p.systemjsExtended || (!hasSystemJs && hasFileOfType cfg FileType.systemjs) then
    if p.systemjsExtended then
      [{ name := "systemjs", test := systemjsTest cfg, path := some (.single systemjsFullPath) }]
    else
      [{ name := "systemjs", test := systemjsTest cfg, path := some (.single systemjsMinPath) }]
  else []

/-- The `if (polyfills.dynamicImport)` block. -/
def dynamicImportConfigs (p : PolyfillsConfig) : List PolyfillConfig :=
  if p.dynamicImport then
    [{ name := "dynamic-import",
       test := some ("\x27noModule\x27 in HTMLScriptElement.prototype && " ++
         "(function () \x7b try \x7b Function(\x27window.importShim = s => import(s);\x27).call(); return false; \x7d catch (_) \x7b return true; \x7d \x7d)()"),
       path := some (.single dynamicImportPath),
       initializer := some "window.dynamicImportPolyfill.initialize(\x7b importFunctionName: \x27importShim\x27 \x7d);" }]
  else []

/-- The `if (polyfills.intersectionObserver)` block. -/
def intersectionObserverConfigs (p : PolyfillsConfig) : List PolyfillConfig :=
  if p.intersectionObserver then
    [{ name := "intersection-observer",
       test := some "!(\x27IntersectionObserver\x27 in window && \x27IntersectionObserverEntry\x27 in window && \x27intersectionRatio\x27 in window.IntersectionObserverEntry.prototype)",
       path := some (.single intersectionObserverPath), minify := true }]
  else []

/-- The `if (polyfills.resizeObserver)` block. -/
def resizeObserverConfigs (p : PolyfillsConfig) : List PolyfillConfig :=
  if p.resizeObserver then
    [{ name := "resize-observer", test := some "!(\x27ResizeObserver\x27 in window)",
       path := some (.single resizeObserverPath), minify := true }]
  else []

/-- The `if (polyfills.scopedCustomElementRegistry)` block. -/
def scopedCustomElementRegistryConfigs (p : PolyfillsConfig) : List PolyfillConfig :=
  if p.scopedCustomElementRegistry then
    [{ name := "scoped-custom-element-registry",
       test := some "!(\x27createElement\x27 in ShadowRoot.prototype)",
       path := some (.single scopedCustomElementRegistryPath) }]
  else []

/-- The `if (polyfills.webcomponents && !polyfills.shadyCssCustomStyle)` block:
the core webcomponents bundle followed by the custom-elements ES5 adapter. -/
def webcomponentsConfigs (p : PolyfillsConfig) : List PolyfillConfig :=
  if p.webcomponents && !p.shadyCssCustomStyle then
    [{ name := "webcomponents",
       test := some "!(\x27attachShadow\x27 in Element.prototype) || !(\x27getRootNode\x27 in Element.prototype) || (window.ShadyDOM && window.ShadyDOM.force)",
       path := some (.single webcomponentsBundlePath) },
     { name := "custom-elements-es5-adapter",
       test := some "!(\x27noModule\x27 in HTMLScriptElement.prototype) && \x27getRootNode\x27 in Element.prototype",
       path := some (.single customElementsEs5AdapterPath) }]
  else []

/-- The `if (polyfills.webcomponents && polyfills.shadyCssCustomStyle)` block:
one entry whose path lists the three sources to concatenate in load order. -/
def webcomponentsShadyCssConfigs (p : PolyfillsConfig) : List PolyfillConfig :=
  if p.webcomponents && p.shadyCssCustomStyle then
    [{ name := "webcomponents-shady-css-custom-style",
       test := some "!(\x27attachShadow\x27 in Element.prototype) || !(\x27getRootNode\x27 in Element.prototype)",
       path := some (.multi [webcomponentsBundlePath, shadyCssCustomStyleInterfacePath,
         shadyCssScopedElementPath]) }]
  else []

/-- The config-interpretation phase of `createPolyfillsData`: the flag-driven
blocks append entries in source order, `polyfills.custom` is appended last,
and AbortController without fetch is a configuration error.  In the source the
`abortController && !fetch` check sits between the fetch and systemjs blocks;
since the blocks are pure and the throw discards the partially built list,
hoisting the check preserves the observable behavior exactly. -/
def buildPolyfillConfigs (cfg : PolyfillsLoaderConfig) : Except String (List PolyfillConfig) :=
  let p := polyfillsOf cfg
  if p.abortController && !p.fetch then
    Except.error "Cannot polyfill AbortController without fetch."
  else
    Except.ok (coreJsConfigs p ++ urlPatternConfigs p ++ esModuleShimsConfigs p ++
      constructibleStylesheetsConfigs p ++ regeneratorRuntimeConfigs p ++ fetchConfigs p ++
      systemjsConfigs cfg p ++ dynamicImportConfigs p ++ intersectionObserverConfigs p ++
      resizeObserverConfigs p ++ scopedCustomElementRegistryConfigs p ++
      webcomponentsConfigs p ++ webcomponentsShadyCssConfigs p ++ p.custom)

/-- Split a character sequence at newline characters.  Models the JavaScript
`content.split('\n')`: splitting the empty sequence yields one empty line, and
a trailing newline yields a trailing empty line. -/
def splitLinesList : List Char → List (List Char)
  | [] => [[]]
  | ch :: cs =>
    if ch = '\n' then [] :: splitLinesList cs
    else
      match splitLinesList cs with
      | [] => [[ch]]
      | l :: ls => (ch :: l) :: ls

/-- Join line character sequences with a newline character.  Models the
JavaScript `lines.join('\n')`. -/
def joinLinesList : List (List Char) → List Char
  | [] => []
  | [l] => l
  | l :: l2 :: ls => l ++ '\n' :: joinLinesList (l2 :: ls)

/-- `content.split('\n')` on strings. -/
def splitLines (s : String) : List String :=
  (splitLinesList s.data).map String.mk

/-- `lines.join('\n')` on strings. -/
def joinLines (ls : List String) : String :=
  String.mk (joinLinesList (ls.map String.data))

/-- The source-map directive prefix looked for by the strip loop. -/
def sourceMapDirective : String := "//# sourceMappingURL"

/-- The body of the strip loop: a line starting with the source-map directive
is replaced by an empty line (`contentLines[i] = ''`), any other line is kept.
`String.startsWith` is modelled as a character-list prefix check. -/
def stripSourceMapLine (line : String) : String :=
  if sourceMapDirective.data.isPrefixOf line.data then "" else line

/-- The split/strip/join body of `readPolyfillFileContents`: the loop visits
every index (it walks from the last line to the first without breaking), so it
is a per-line map over the split content. -/
def stripSourceMapUrls (content : String) : String :=
  joinLines ((splitLines content).map stripSourceMapLine)

/-- `readPolyfillFileContents`: fail when the specifier does not resolve to an
existing regular file, otherwise read it and blank out source-map directive
lines. -/
def readPolyfillFileContents (ctx : MaterializeCtx) (filePath : String) :
    Except String String :=
  match ctx.fs filePath with
  | none => Except.error ("Could not find a file at " ++ filePath)
  | some raw => Except.ok (stripSourceMapUrls raw)

/-- Sequential effectful map over a list in the `Except` monad; models the
`for ... of` loop that pushes one result per entry and lets the first thrown
error abort the whole call (also the sequential `.map` used on path arrays). -/
def mapExcept {α β ε : Type} (f : α → Except ε β) : List α → Except ε (List β)
  | [] => Except.ok []
  | a :: as => do
    let b ← f a
    let bs ← mapExcept f as
    Except.ok (b :: bs)

/-- Content of one polyfill config: an array path maps each element through
`readPolyfillFileContents` and joins with no separator (`.join('')`), a string
path reads the single file. -/
def readPolyfillContent (ctx : MaterializeCtx) : PolyfillPath → Except String String
  | .single fp => readPolyfillFileContents ctx fp
  | .multi fps => do
    let parts ← mapExcept (readPolyfillFileContents ctx) fps
    Except.ok (String.join parts)

/-- JavaScript truthiness of `!polyfillConfig.path`: an undefined path and an
empty-string path are falsy; every array, even an empty one, is truthy. -/
def pathIsFalsy : Option PolyfillPath → Bool
  | none => true
  | some (.single p) => p == ""
  | some (.multi _) => false

/-- `cfg.polyfillsDir || 'polyfills'` (an empty string is falsy). -/
def polyfillsDirOf (cfg : PolyfillsLoaderConfig) : String :=
  match cfg.polyfillsDir with
  | none => "polyfills"
  | some d => if d == "" then "polyfills" else d

/-- `polyfills.hash !== false ? '.' + createContentHash(content) : ''`. -/
def hashSegmentOf (ctx : MaterializeCtx) (p : PolyfillsConfig) (content : String) : String :=
  if p.hash == some false then "" else "." ++ ctx.hash content

/-- `path.posix.join` restricted to the two already-normalized segments the
source joins: it inserts a single separator. -/
def posixJoin (a b : String) : String := a ++ "/" ++ b

/-- The output path computed per entry. -/
def outputPath (ctx : MaterializeCtx) (cfg : PolyfillsLoaderConfig)
    (nm content : String) : String :=
  posixJoin (polyfillsDirOf cfg) (nm ++ hashSegmentOf ctx (polyfillsOf cfg) content) ++ ".js"

/-- One iteration of the materialization loop: validate name and path, read
and concatenate the sources, minify when requested (a rejected `Terser.minify`
promise propagates), and emit the artifact record. -/
def materializeOne (ctx : MaterializeCtx) (cfg : PolyfillsLoaderConfig)
    (e : PolyfillConfig) : Except String PolyfillFile :=
  if e.name == "" || pathIsFalsy e.path then
    Except.error "A polyfill should have a name and a path property."
  else
    match e.path with
    | none => Except.error "A polyfill should have a name and a path property."
    | some pp => do
      let c0 ← readPolyfillContent ctx pp
      let c ← if e.minify then ctx.minify c0 else Except.ok c0
      Except.ok
        { name := e.name
          type := e.fileType.getD FileType.script
          path := outputPath ctx cfg e.name c
          content := c
          test := e.test
          initializer := e.initializer }

/-- `createPolyfillsData`: interpret the configuration into the ordered config
list, then materialize each entry in order. -/
def createPolyfillsData (ctx : MaterializeCtx) (cfg : PolyfillsLoaderConfig) :
    Except String (List PolyfillFile) := do
  let configs ← buildPolyfillConfigs cfg
  mapExcept (materializeOne ctx cfg) configs

theorem splitLinesList_ne_nil (cs : List Char) : splitLinesList cs ≠ [] := by
  induction cs with
  | nil => simp [splitLinesList]
  | cons ch cs ih =>
    simp only [splitLinesList]
    split
    · simp
    · split
      · simp
      · simp

theorem not_newline_of_mem_splitLinesList (cs : List Char) :
    ∀ l ∈ splitLinesList cs, '\n' ∉ l := by
  induction cs with
  | nil =>
    intro l hl
    simp only [splitLinesList, List.mem_singleton] at hl
    subst hl
    simp
  | cons ch cs ih =>
    intro l hl
    simp only [splitLinesList] at hl
    by_cases h : ch = '\n'
    · rw [if_pos h] at hl
      rcases List.mem_cons.mp hl with rfl | hmem
      · simp
      · exact ih l hmem
    · rw [if_neg h] at hl
      cases hsp : splitLinesList cs with
      | nil => exact absurd hsp (splitLinesList_ne_nil cs)
      | cons l0 ls0 =>
        rw [hsp] at hl
        rcases List.mem_cons.mp hl with rfl | hmem
        · intro hc
          rcases List.mem_cons.mp hc with hc | hc
          · exact h hc.symm
          · exact ih l0 (hsp ▸ List.mem_cons_self l0 ls0) hc
        · exact ih l (hsp ▸ List.mem_cons_of_mem l0 hmem)

theorem splitLinesList_no_newline (l : List Char) (h : '\n' ∉ l) :
    splitLinesList l = [l] := by
  induction l with
  | nil => rfl
  | cons ch l ih =>
    have hch : ¬ ch = '\n' := fun hc => h (hc ▸ List.mem_cons_self ch l)
    simp only [splitLinesList, if_neg hch,
      ih (fun hm => h (List.mem_cons_of_mem ch hm))]

theorem splitLinesList_append_newline (l cs : List Char) (h : '\n' ∉ l) :
    splitLinesList (l ++ '\n' :: cs) = l :: splitLinesList cs := by
  induction l with
  | nil => simp [splitLinesList]
  | cons ch l ih =>
    have hch : ¬ ch = '\n' := fun hc => h (hc ▸ List.mem_cons_self ch l)
    have ih2 := ih (fun hm => h (List.mem_cons_of_mem ch hm))
    simp only [List.cons_append, splitLinesList, if_neg hch, List.append_eq, ih2]

theorem splitLinesList_joinLinesList (ls : List (List Char)) (hne : ls ≠ [])
    (h : ∀ l ∈ ls, '\n' ∉ l) : splitLinesList (joinLinesList ls) = ls := by
  induction ls with
  | nil => exact absurd rfl hne
  | cons l ls ih =>
    cases ls with
    | nil =>
      simp only [joinLinesList]
      exact splitLinesList_no_newline l (h l (List.mem_cons_self l []))
    | cons l2 ls2 =>
      simp only [joinLinesList]
      rw [splitLinesList_append_newline l _ (h l (List.mem_cons_self l (l2 :: ls2)))]
      rw [ih (by simp) (fun l' hl' => h l' (List.mem_cons_of_mem l hl'))]

theorem splitLines_joinLines (ls : List String) (hne : ls ≠ [])
    (h : ∀ l ∈ ls, '\n' ∉ l.data) : splitLines (joinLines ls) = ls := by
  unfold splitLines joinLines
  rw [splitLinesList_joinLinesList (ls.map String.data)
    (fun hm => hne (List.map_eq_nil_iff.mp hm))
    (by
      intro l hl
      rcases List.mem_map.mp hl with ⟨s, hs, rfl⟩
      exact h s hs)]
  rw [List.map_map]
  have hid : String.mk ∘ String.data = fun s => s := funext fun s => by cases s; rfl
  rw [hid, List.map_id']

theorem not_newline_of_mem_splitLines (c : String) :
    ∀ l ∈ splitLines c, '\n' ∉ l.data := by
  intro l hl
  rcases List.mem_map.mp hl with ⟨lc, hlc, rfl⟩
  simpa using not_newline_of_mem_splitLinesList c.data lc hlc

theorem splitLines_ne_nil (c : String) : splitLines c ≠ [] :=
  fun hm => splitLinesList_ne_nil c.data (List.map_eq_nil_iff.mp hm)

theorem splitLines_stripSourceMapUrls (c : String) :
    splitLines (stripSourceMapUrls c) = (splitLines c).map stripSourceMapLine := by
  unfold stripSourceMapUrls
  apply splitLines_joinLines
  · exact fun hm => splitLines_ne_nil c (List.map_eq_nil_iff.mp hm)
  · intro l hl
    rcases List.mem_map.mp hl with ⟨l0, hl0, rfl⟩
    unfold stripSourceMapLine
    split
    · simp
    · exact not_newline_of_mem_splitLines c l0 hl0

theorem exceptBind_error {β γ : Type} (m : String) (g : β → Except String γ) :
    (Except.error m >>= g) = Except.error m := rfl

theorem exceptBind_ok {β γ : Type} (b : β) (g : β → Except String γ) :
    (Except.ok b >>= g) = g b := rfl

theorem mapExcept_ok_of_mem {α β : Type} (f : α → Except String β) {l : List α}
    {bs : List β} (h : mapExcept f l = Except.ok bs) :
    ∀ a ∈ l, ∃ b, f a = Except.ok b := by
  induction l generalizing bs with
  | nil => intro a ha; cases ha
  | cons x l ih =>
    intro a ha
    rw [mapExcept] at h
    cases hx : f x with
    | error m =>
      rw [hx, exceptBind_error] at h
      cases h
    | ok bx =>
      rw [hx, exceptBind_ok] at h
      cases hrest : mapExcept f l with
      | error m =>
        rw [hrest, exceptBind_error] at h
        cases h
      | ok brest =>
        rcases List.mem_cons.mp ha with rfl | hmem
        · exact ⟨bx, hx⟩
        · exact ih hrest a hmem

theorem mapExcept_error_of_mem {α β : Type} (f : α → Except String β) {l : List α}
    {a : α} {m : String} (ha : a ∈ l) (hf : f a = Except.error m) :
    ∃ m2, mapExcept f l = Except.error m2 := by
  cases h : mapExcept f l with
  | error m2 => exact ⟨m2, rfl⟩
  | ok bs =>
    rcases mapExcept_ok_of_mem f h a ha with ⟨b, hb⟩
    rw [hf] at hb
    cases hb

theorem mapExcept_nil {α β : Type} (f : α → Except String β) :
    mapExcept f [] = Except.ok [] := rfl

/-- Inversion of a successful `materializeOne`: the artifact carries the
entry's name, test, initializer, defaulted file type, and the output path
computed from the final content. -/
theorem materializeOne_ok_fields {ctx : MaterializeCtx} {cfg : PolyfillsLoaderConfig}
    {e : PolyfillConfig} {f : PolyfillFile} (h : materializeOne ctx cfg e = Except.ok f) :
    f.name = e.name ∧ f.path = outputPath ctx cfg f.name f.content ∧
    f.test = e.test ∧ f.initializer = e.initializer ∧
    f.type = e.fileType.getD FileType.script := by
  unfold materializeOne at h
  split at h
  · cases h
  · split at h
    · cases h
    · rename_i pp hpp
      cases hr : readPolyfillContent ctx pp with
      | error m =>
        rw [hr, exceptBind_error] at h
        cases h
      | ok c0 =>
        rw [hr, exceptBind_ok] at h
        cases hm : e.minify with
        | false =>
          rw [hm] at h
          rw [if_neg (by simp)] at h
          rw [exceptBind_ok] at h
          injection h with h
          subst h
          exact ⟨rfl, rfl, rfl, rfl, rfl⟩
        | true =>
          rw [hm] at h
          rw [if_pos rfl] at h
          cases hmin : ctx.minify c0 with
          | error m =>
            rw [hmin, exceptBind_error] at h
            cases h
          | ok c =>
            rw [hmin, exceptBind_ok] at h
            injection h with h
            subst h
            exact ⟨rfl, rfl, rfl, rfl, rfl⟩

/-- C1: for every configuration with the `abortController` flag set and the
`fetch` flag unset — whatever the other flags and custom entries — config
interpretation itself fails with the configuration error, and so does the
whole resolution for every file system, minifier, and hasher (hence before
any file I/O can be attempted). -/
theorem abortController_without_fetch_fails (cfg : PolyfillsLoaderConfig)
    (ha : (polyfillsOf cfg).abortController = true)
    (hf : (polyfillsOf cfg).fetch = false) :
    buildPolyfillConfigs cfg =
      Except.error "Cannot polyfill AbortController without fetch." ∧
    ∀ ctx : MaterializeCtx,
      createPolyfillsData ctx cfg =
        Except.error "Cannot polyfill AbortController without fetch." := by
  have hcond : ((polyfillsOf cfg).abortController && !(polyfillsOf cfg).fetch) = true := by
    rw [ha, hf]
    rfl
  have hb : buildPolyfillConfigs cfg =
      Except.error "Cannot polyfill AbortController without fetch." := by
    unfold buildPolyfillConfigs
    rw [if_pos hcond]
  refine ⟨hb, fun ctx => ?_⟩
  unfold createPolyfillsData
  rw [hb, exceptBind_error]

/-- A configuration requesting AbortController but not fetch, with several
other flags and a custom entry also set. -/
def abortNoFetchCfg : PolyfillsLoaderConfig :=
  { polyfills := some
      { abortController := true
        coreJs := true
        webcomponents := true
        esModuleShims := .always
        custom := [{ name := "x", path := some (.single "x.js") }] } }

theorem abortController_without_fetch_fails_witness :
    buildPolyfillConfigs abortNoFetchCfg =
      Except.error "Cannot polyfill AbortController without fetch." ∧
    ∀ ctx : MaterializeCtx,
      createPolyfillsData ctx abortNoFetchCfg =
        Except.error "Cannot polyfill AbortController without fetch." :=
  abortController_without_fetch_fails abortNoFetchCfg rfl rfl

/-- No polyfill inclusion flag of §4.1 is set (the `boolean | 'always'` flags
are absent/false). -/
abbrev NoPolyfillFlags (p : PolyfillsConfig) : Prop :=
  p.coreJs = false ∧ p.URLPattern = false ∧ p.esModuleShims = BoolAlways.off ∧
  p.constructibleStylesheets = false ∧ p.regeneratorRuntime = BoolAlways.off ∧
  p.fetch = false ∧ p.abortController = false ∧ p.systemjs = false ∧
  p.systemjsExtended = false ∧ p.dynamicImport = false ∧
  p.intersectionObserver = false ∧ p.resizeObserver = false ∧
  p.scopedCustomElementRegistry = false ∧ p.webcomponents = false ∧
  p.shadyCssCustomStyle = false

/-- A file system providing only the plain systemjs bundle. -/
def systemjsOnlyCtx : MaterializeCtx :=
  { fs := fun p => if p = systemjsMinPath then some "sjs" else none
    minify := fun s => Except.ok s
    hash := fun _ => "h" }

/-- A configuration with no polyfill flags and no custom entries, whose
declared modern output contains a systemjs-type file. -/
def noFlagsModernSystemjsCfg : PolyfillsLoaderConfig :=
  { modern := some { files := [{ type := FileType.systemjs }] } }

/-- The artifact produced for `noFlagsModernSystemjsCfg`. -/
def systemjsArtifact : PolyfillFile :=
  { name := "systemjs"
    type := FileType.script
    path := "polyfills/systemjs.h.js"
    content := "sjs"
    test := none
    initializer := none }

/-- C6 counterexample: a configuration with no polyfill flag set and no
custom entries whose resolution is nevertheless a non-empty artifact list,
because a declared modern output file of the systemjs type triggers the
module-loader fallback. -/
theorem no_flags_nonempty_output :
    NoPolyfillFlags (polyfillsOf noFlagsModernSystemjsCfg) ∧
    (polyfillsOf noFlagsModernSystemjsCfg).custom = [] ∧
    createPolyfillsData systemjsOnlyCtx noFlagsModernSystemjsCfg =
      Except.ok [systemjsArtifact] :=
  ⟨by decide, rfl, rfl⟩

/-- C6 amended: with no polyfill flag set, no custom entries, and no declared
modern or legacy output file of the systemjs type, the resolution returns the
empty artifact list (for every file system, minifier, and hasher). -/
theorem no_flags_empty_output (cfg : PolyfillsLoaderConfig) (ctx : MaterializeCtx)
    (hp : NoPolyfillFlags (polyfillsOf cfg))
    (hcustom : (polyfillsOf cfg).custom = [])
    (hfile : hasFileOfType cfg FileType.systemjs = false) :
    createPolyfillsData ctx cfg = Except.ok [] := by
  obtain ⟨h1, h2, h3, h4, h5, h6, h7, h8, h9, h10, h11, h12, h13, h14, h15⟩ := hp
  have hb : buildPolyfillConfigs cfg = Except.ok [] := by
    unfold buildPolyfillConfigs
    rw [if_neg (by rw [h7]; simp)]
    simp [coreJsConfigs, urlPatternConfigs, esModuleShimsConfigs,
      constructibleStylesheetsConfigs, regeneratorRuntimeConfigs, fetchConfigs,
      systemjsConfigs, dynamicImportConfigs, intersectionObserverConfigs,
      resizeObserverConfigs, scopedCustomElementRegistryConfigs,
      webcomponentsConfigs, webcomponentsShadyCssConfigs, BoolAlways.truthy,
      h1, h2, h3, h4, h5, h6, h8, h9, h10, h11, h12, h13, h14, h15, hcustom, hfile]
  unfold createPolyfillsData
  rw [hb, exceptBind_ok, mapExcept_nil]

theorem no_flags_empty_output_witness :
    createPolyfillsData systemjsOnlyCtx { legacy := some [] } = Except.ok [] :=
  no_flags_empty_output { legacy := some [] } systemjsOnlyCtx (by decide) rfl rfl

/-- The entry pushed by the `esModuleShims` block. -/
def esModuleShimsEntry (p : PolyfillsConfig) : PolyfillConfig :=
  { name := "es-module-shims"
    test := if p.esModuleShims ≠ BoolAlways.always then some "1" else none
    path := some (.single esModuleShimsPath) }

/-- C2: when the `esModuleShims` flag is truthy, config interpretation (when
it succeeds) produces the `es-module-shims` entry, and that entry carries a
test exactly when the flag value is not the `'always'` literal; in that case
the test is the literal `'1'`, and for `'always'` no test is attached. -/
theorem es_module_shims_test_polarity (cfg : PolyfillsLoaderConfig)
    (hs : (polyfillsOf cfg).esModuleShims.truthy = true)
    (hok : ((polyfillsOf cfg).abortController && !(polyfillsOf cfg).fetch) = false) :
    ∃ l, buildPolyfillConfigs cfg = Except.ok l ∧
      ∃ e ∈ l, e.name = "es-module-shims" ∧
        e.path = some (.single esModuleShimsPath) ∧
        (e.test = none ↔ (polyfillsOf cfg).esModuleShims = BoolAlways.always) ∧
        ((polyfillsOf cfg).esModuleShims ≠ BoolAlways.always → e.test = some "1") := by
  have hes : esModuleShimsConfigs (polyfillsOf cfg) =
      [esModuleShimsEntry (polyfillsOf cfg)] := by
    unfold esModuleShimsConfigs esModuleShimsEntry
    rw [if_pos hs]
  refine ⟨_, by unfold buildPolyfillConfigs; rw [if_neg (by simp [hok])], ?_⟩
  refine ⟨esModuleShimsEntry (polyfillsOf cfg), ?_, rfl, rfl, ?_, ?_⟩
  · simp only [List.mem_append, hes, List.mem_singleton]
    tauto
  · by_cases hc : (polyfillsOf cfg).esModuleShims = BoolAlways.always
    · simp [esModuleShimsEntry, hc]
    · simp [esModuleShimsEntry, hc]
  · intro hc
    simp [esModuleShimsEntry, hc]

theorem es_module_shims_test_polarity_witness :
    (∃ l, buildPolyfillConfigs { polyfills := some { esModuleShims := BoolAlways.on } } =
        Except.ok l ∧
      ∃ e ∈ l, e.name = "es-module-shims" ∧
        e.path = some (.single esModuleShimsPath) ∧
        (e.test = none ↔
          (polyfillsOf { polyfills := some { esModuleShims := BoolAlways.on } }).esModuleShims =
            BoolAlways.always) ∧
        ((polyfillsOf { polyfills := some { esModuleShims := BoolAlways.on } }).esModuleShims ≠
            BoolAlways.always → e.test = some "1")) :=
  es_module_shims_test_polarity { polyfills := some { esModuleShims := BoolAlways.on } } rfl rfl

/-- Materializing an entry with a single existing source file and no minify
flag yields the artifact with the stripped file content. -/
theorem materializeOne_single_ok (ctx : MaterializeCtx) (cfg : PolyfillsLoaderConfig)
    (nm fp : String) (t ini : Option String) (ft : Option FileType) (c : String)
    (hnm : (nm == "") = false) (hfp : (fp == "") = false)
    (hfs : ctx.fs fp = some c) :
    materializeOne ctx cfg
      { name := nm, path := some (.single fp), test := t, initializer := ini,
        minify := false, fileType := ft } =
    Except.ok
      { name := nm, type := ft.getD FileType.script,
        path := outputPath ctx cfg nm (stripSourceMapUrls c),
        content := stripSourceMapUrls c, test := t, initializer := ini } := by
  unfold materializeOne
  rw [if_neg (by simp [pathIsFalsy, hnm, hfp])]
  simp only [readPolyfillContent, readPolyfillFileContents, hfs, exceptBind_ok]
  rfl

/-- C4: with `webcomponents` set and `shadyCssCustomStyle` unset, the
webcomponents rule contributes exactly two entries — the core bundle then the
ES5 adapter — and (when both source files exist) exactly two artifacts in
that relative order, while the shady-css variant of the rule contributes
nothing. -/
theorem webcomponents_two_artifacts (ctx : MaterializeCtx) (cfg : PolyfillsLoaderConfig)
    (cwb cad : String)
    (hwc : (polyfillsOf cfg).webcomponents = true)
    (hsh : (polyfillsOf cfg).shadyCssCustomStyle = false)
    (hfa : ctx.fs webcomponentsBundlePath = some cwb)
    (hfb : ctx.fs customElementsEs5AdapterPath = some cad) :
    webcomponentsShadyCssConfigs (polyfillsOf cfg) = [] ∧
    (webcomponentsConfigs (polyfillsOf cfg)).length = 2 ∧
    ∃ f1 f2, mapExcept (materializeOne ctx cfg) (webcomponentsConfigs (polyfillsOf cfg)) =
        Except.ok [f1, f2] ∧
      f1.name = "webcomponents" ∧ f2.name = "custom-elements-es5-adapter" ∧
      f1.content = stripSourceMapUrls cwb ∧ f2.content = stripSourceMapUrls cad := by
  have hcfgs : webcomponentsConfigs (polyfillsOf cfg) =
      [{ name := "webcomponents",
         test := some "!(\x27attachShadow\x27 in Element.prototype) || !(\x27getRootNode\x27 in Element.prototype) || (window.ShadyDOM && window.ShadyDOM.force)",
         path := some (.single webcomponentsBundlePath) },
       { name := "custom-elements-es5-adapter",
         test := some "!(\x27noModule\x27 in HTMLScriptElement.prototype) && \x27getRootNode\x27 in Element.prototype",
         path := some (.single customElementsEs5AdapterPath) }] := by
    unfold webcomponentsConfigs
    rw [if_pos (by rw [hwc, hsh]; rfl)]
  refine ⟨?_, ?_, ?_⟩
  · unfold webcomponentsShadyCssConfigs
    rw [if_neg (by rw [hwc, hsh]; simp)]
  · rw [hcfgs]
    rfl
  · rw [hcfgs]
    rw [mapExcept, materializeOne_single_ok ctx cfg "webcomponents" webcomponentsBundlePath _
      none none cwb (by decide) (by decide) hfa, exceptBind_ok]
    rw [mapExcept, materializeOne_single_ok ctx cfg "custom-elements-es5-adapter"
      customElementsEs5AdapterPath _ none none cad (by decide) (by decide) hfb, exceptBind_ok]
    rw [mapExcept_nil, exceptBind_ok]
    exact ⟨_, _, rfl, rfl, rfl, rfl, rfl⟩

/-- A file system providing the webcomponents-related source files. -/
def wcCtx : MaterializeCtx :=
  { fs := fun p =>
      if p = webcomponentsBundlePath then some "wcb"
      else if p = customElementsEs5AdapterPath then some "es5"
      else if p = shadyCssCustomStyleInterfacePath then some "csi"
      else if p = shadyCssScopedElementPath then some "sse"
      else none
    minify := fun s => Except.ok s
    hash := fun _ => "h" }

/-- A configuration enabling only the `webcomponents` flag. -/
def wcOnlyCfg : PolyfillsLoaderConfig :=
  { polyfills := some { webcomponents := true } }

theorem webcomponents_two_artifacts_witness :
    webcomponentsShadyCssConfigs (polyfillsOf wcOnlyCfg) = [] ∧
    (webcomponentsConfigs (polyfillsOf wcOnlyCfg)).length = 2 ∧
    ∃ f1 f2, mapExcept (materializeOne wcCtx wcOnlyCfg)
        (webcomponentsConfigs (polyfillsOf wcOnlyCfg)) = Except.ok [f1, f2] ∧
      f1.name = "webcomponents" ∧ f2.name = "custom-elements-es5-adapter" ∧
      f1.content = stripSourceMapUrls "wcb" ∧ f2.content = stripSourceMapUrls "es5" :=
  webcomponents_two_artifacts wcCtx wcOnlyCfg "wcb" "es5" rfl rfl rfl rfl

/-- C3: with both `webcomponents` and `shadyCssCustomStyle` set, the
webcomponents rule contributes a single entry whose path lists the three
sources in order (core bundle, custom-style interface, scoped shady-css
element), the plain webcomponents rule contributes nothing, and
materialization (when the three source files exist) yields exactly one
artifact whose content is the ordered concatenation of the three stripped
sources. -/
theorem webcomponents_shady_css_single_artifact (ctx : MaterializeCtx)
    (cfg : PolyfillsLoaderConfig) (ca cb cc : String)
    (hwc : (polyfillsOf cfg).webcomponents = true)
    (hsh : (polyfillsOf cfg).shadyCssCustomStyle = true)
    (hfa : ctx.fs webcomponentsBundlePath = some ca)
    (hfb : ctx.fs shadyCssCustomStyleInterfacePath = some cb)
    (hfc : ctx.fs shadyCssScopedElementPath = some cc) :
    webcomponentsConfigs (polyfillsOf cfg) = [] ∧
    ∃ e, webcomponentsShadyCssConfigs (polyfillsOf cfg) = [e] ∧
      e.path = some (.multi [webcomponentsBundlePath, shadyCssCustomStyleInterfacePath,
        shadyCssScopedElementPath]) ∧
      ∃ f, mapExcept (materializeOne ctx cfg)
          (webcomponentsShadyCssConfigs (polyfillsOf cfg)) = Except.ok [f] ∧
        f.name = "webcomponents-shady-css-custom-style" ∧
        f.content = stripSourceMapUrls ca ++ stripSourceMapUrls cb ++ stripSourceMapUrls cc := by
  have hcfgs : webcomponentsShadyCssConfigs (polyfillsOf cfg) =
      [{ name := "webcomponents-shady-css-custom-style",
         test := some "!(\x27attachShadow\x27 in Element.prototype) || !(\x27getRootNode\x27 in Element.prototype)",
         path := some (.multi [webcomponentsBundlePath, shadyCssCustomStyleInterfacePath,
           shadyCssScopedElementPath]) }] := by
    unfold webcomponentsShadyCssConfigs
    rw [if_pos (by rw [hwc, hsh]; rfl)]
  refine ⟨?_, ?_⟩
  · unfold webcomponentsConfigs
    rw [if_neg (by rw [hwc, hsh]; simp)]
  · refine ⟨_, hcfgs, rfl, ?_⟩
    rw [hcfgs]
    rw [mapExcept]
    have hread : readPolyfillContent ctx
        (.multi [webcomponentsBundlePath, shadyCssCustomStyleInterfacePath,
          shadyCssScopedElementPath]) =
        Except.ok (stripSourceMapUrls ca ++ stripSourceMapUrls cb ++ stripSourceMapUrls cc) := by
      rw [readPolyfillContent]
      rw [mapExcept]
      rw [show readPolyfillFileContents ctx webcomponentsBundlePath =
        Except.ok (stripSourceMapUrls ca) by rw [readPolyfillFileContents, hfa], exceptBind_ok]
      rw [mapExcept]
      rw [show readPolyfillFileContents ctx shadyCssCustomStyleInterfacePath =
        Except.ok (stripSourceMapUrls cb) by rw [readPolyfillFileContents, hfb], exceptBind_ok]
      rw [mapExcept]
      rw [show readPolyfillFileContents ctx shadyCssScopedElementPath =
        Except.ok (stripSourceMapUrls cc) by rw [readPolyfillFileContents, hfc], exceptBind_ok]
      rw [mapExcept_nil, exceptBind_ok, exceptBind_ok, exceptBind_ok]
      rfl
    unfold materializeOne
    rw [if_neg (by simp [pathIsFalsy])]
    simp only [hread, exceptBind_ok]
    exact ⟨_, rfl, rfl, rfl⟩

/-- A configuration enabling `webcomponents` and `shadyCssCustomStyle`. -/
def wcShadyCfg : PolyfillsLoaderConfig :=
  { polyfills := some { webcomponents := true, shadyCssCustomStyle := true } }

theorem webcomponents_shady_css_single_artifact_witness :
    webcomponentsConfigs (polyfillsOf wcShadyCfg) = [] ∧
    ∃ e, webcomponentsShadyCssConfigs (polyfillsOf wcShadyCfg) = [e] ∧
      e.path = some (.multi [webcomponentsBundlePath, shadyCssCustomStyleInterfacePath,
        shadyCssScopedElementPath]) ∧
      ∃ f, mapExcept (materializeOne wcCtx wcShadyCfg)
          (webcomponentsShadyCssConfigs (polyfillsOf wcShadyCfg)) = Except.ok [f] ∧
        f.name = "webcomponents-shady-css-custom-style" ∧
        f.content = stripSourceMapUrls "wcb" ++ stripSourceMapUrls "csi" ++
          stripSourceMapUrls "sse" :=
  webcomponents_shady_css_single_artifact wcCtx wcShadyCfg "wcb" "csi" "sse"
    rfl rfl rfl rfl rfl

/-- The entry pushed by the systemjs block for a given resolved bundle. -/
def systemjsEntry (cfg : PolyfillsLoaderConfig) (fp : String) : PolyfillConfig :=
  { name := "systemjs"
    test := systemjsTest cfg
    path := some (.single fp) }

/-- C7: whenever the systemjs inclusion condition holds (and interpretation
succeeds), the produced `systemjs` entry's test is absent exactly when some
modern output file has the systemjs type or no legacy configuration exists,
and otherwise it is the legacy entries' tests joined with `' || '`. -/
theorem systemjs_test_condition (cfg : PolyfillsLoaderConfig)
    (hinc : ((polyfillsOf cfg).systemjs || (polyfillsOf cfg).systemjsExtended ||
      (!((polyfillsOf cfg).custom.any fun c => c.name == "systemjs") &&
        hasFileOfType cfg FileType.systemjs)) = true)
    (hok : ((polyfillsOf cfg).abortController && !(polyfillsOf cfg).fetch) = false) :
    ∃ l, buildPolyfillConfigs cfg = Except.ok l ∧
      ∃ e ∈ l, e.name = "systemjs" ∧ e.test = systemjsTest cfg ∧
        (systemjsAlwaysLoad cfg = true ∨ cfg.legacy = none → e.test = none) ∧
        (∀ es, cfg.legacy = some es → systemjsAlwaysLoad cfg = false →
          e.test = some (String.intercalate " || " (es.map fun en => en.test))) := by
  have htest : ∀ e : PolyfillConfig, e.test = systemjsTest cfg →
      (systemjsAlwaysLoad cfg = true ∨ cfg.legacy = none → e.test = none) ∧
      (∀ es, cfg.legacy = some es → systemjsAlwaysLoad cfg = false →
        e.test = some (String.intercalate " || " (es.map fun en => en.test))) := by
    intro e he
    constructor
    · intro hcase
      rcases hcase with hal | hleg
      · rw [he]
        unfold systemjsTest
        rw [if_pos hal]
      · rw [he]
        unfold systemjsTest
        rw [hleg]
        split
        · rfl
        · rfl
    · intro es hes hal
      rw [he]
      unfold systemjsTest
      rw [if_neg (by rw [hal]; simp), hes]
  refine ⟨_, by unfold buildPolyfillConfigs; rw [if_neg (by simp [hok])], ?_⟩
  cases hext : (polyfillsOf cfg).systemjsExtended with
  | true =>
    refine ⟨systemjsEntry cfg systemjsFullPath, ?_, rfl, rfl, htest _ rfl⟩
    have hsys : systemjsConfigs cfg (polyfillsOf cfg) = [systemjsEntry cfg systemjsFullPath] := by
      unfold systemjsConfigs systemjsEntry
      rw [if_pos (by simpa using hinc), if_pos hext]
    simp only [List.mem_append, hsys, List.mem_singleton]
    tauto
  | false =>
    refine ⟨systemjsEntry cfg systemjsMinPath, ?_, rfl, rfl, htest _ rfl⟩
    have hsys : systemjsConfigs cfg (polyfillsOf cfg) = [systemjsEntry cfg systemjsMinPath] := by
      unfold systemjsConfigs systemjsEntry
      rw [if_pos (by simpa using hinc)]
      rw [hext]
      simp
    simp only [List.mem_append, hsys, List.mem_singleton]
    tauto

/-- A configuration with the `systemjs` flag and two legacy entries. -/
def systemjsLegacyCfg : PolyfillsLoaderConfig :=
  { polyfills := some { systemjs := true }
    legacy := some [{ test := "testA", files := [] }, { test := "testB", files := [] }] }

theorem systemjs_test_condition_witness :
    (∃ l, buildPolyfillConfigs systemjsLegacyCfg = Except.ok l ∧
      ∃ e ∈ l, e.name = "systemjs" ∧ e.test = systemjsTest systemjsLegacyCfg ∧
        (systemjsAlwaysLoad systemjsLegacyCfg = true ∨ systemjsLegacyCfg.legacy = none →
          e.test = none) ∧
        (∀ es, systemjsLegacyCfg.legacy = some es →
          systemjsAlwaysLoad systemjsLegacyCfg = false →
          e.test = some (String.intercalate " || " (es.map fun en => en.test)))) :=
  systemjs_test_condition systemjsLegacyCfg rfl rfl

/-- The post-validation body of `materializeOne` for a known path value. -/
def materializeBody (ctx : MaterializeCtx) (cfg : PolyfillsLoaderConfig)
    (e : PolyfillConfig) (pp : PolyfillPath) : Except String PolyfillFile := do
  let c0 ← readPolyfillContent ctx pp
  let c ← if e.minify then ctx.minify c0 else Except.ok c0
  Except.ok
    { name := e.name
      type := e.fileType.getD FileType.script
      path := outputPath ctx cfg e.name c
      content := c
      test := e.test
      initializer := e.initializer }

/-- Reduction of `materializeOne` for an entry that passes validation and has
`path = some pp`. -/
theorem materializeOne_some_path (ctx : MaterializeCtx) (cfg : PolyfillsLoaderConfig)
    (e : PolyfillConfig) (pp : PolyfillPath) (hpath : e.path = some pp)
    (hvalid : (e.name == "" || pathIsFalsy e.path) = false) :
    materializeOne ctx cfg e = materializeBody ctx cfg e pp := by
  unfold materializeOne materializeBody
  rw [if_neg (by simp [hvalid])]
  rw [hpath]

/-- C8: if an entry of the interpreted config list has the minify flag and the
minifier fails on its concatenated content, that entry's materialization fails
with the minifier's error — it never falls back to the un-minified content —
and the whole resolution call returns an error. -/
theorem minify_failure_fatal (ctx : MaterializeCtx) (cfg : PolyfillsLoaderConfig)
    (l : List PolyfillConfig) (e : PolyfillConfig) (pp : PolyfillPath) (c0 m : String)
    (hb : buildPolyfillConfigs cfg = Except.ok l) (he : e ∈ l)
    (hname : (e.name == "") = false) (hpath : e.path = some pp)
    (hfalsy : pathIsFalsy (some pp) = false)
    (hread : readPolyfillContent ctx pp = Except.ok c0)
    (hminflag : e.minify = true)
    (hterser : ctx.minify c0 = Except.error m) :
    materializeOne ctx cfg e = Except.error m ∧
    ∃ m2, createPolyfillsData ctx cfg = Except.error m2 := by
  have hone : materializeOne ctx cfg e = Except.error m := by
    rw [materializeOne_some_path ctx cfg e pp hpath (by rw [hpath, hfalsy, hname]; rfl)]
    unfold materializeBody
    rw [hread, exceptBind_ok, hminflag, if_pos rfl, hterser, exceptBind_error]
  refine ⟨hone, ?_⟩
  rcases mapExcept_error_of_mem (materializeOne ctx cfg) he hone with ⟨m2, hm2⟩
  refine ⟨m2, ?_⟩
  unfold createPolyfillsData
  rw [hb, exceptBind_ok, hm2]

/-- A file system with the fetch shim source, and a minifier that always
fails. -/
def minifyFailCtx : MaterializeCtx :=
  { fs := fun p => if p = whatwgFetchPath then some "fetchsrc" else none
    minify := fun _ => Except.error "minify failed"
    hash := fun _ => "h" }

/-- A configuration enabling only the `fetch` flag (whose entry sets
`minify: true`). -/
def fetchOnlyCfg : PolyfillsLoaderConfig :=
  { polyfills := some { fetch := true } }

/-- The entry the interpreter produces for `fetchOnlyCfg`. -/
def fetchEntry : PolyfillConfig :=
  { name := "fetch"
    test := some (fetchTest { fetch := true })
    path := some (.multi [whatwgFetchPath])
    minify := true }

theorem minify_failure_fatal_witness :
    materializeOne minifyFailCtx fetchOnlyCfg fetchEntry = Except.error "minify failed" ∧
    ∃ m2, createPolyfillsData minifyFailCtx fetchOnlyCfg = Except.error m2 :=
  minify_failure_fatal minifyFailCtx fetchOnlyCfg [fetchEntry] fetchEntry
    (.multi [whatwgFetchPath]) "fetchsrc" "minify failed" rfl
    (List.mem_singleton.mpr rfl) rfl rfl rfl rfl rfl rfl

/-- A file system with no files at all. -/
def emptyFsCtx : MaterializeCtx :=
  { fs := fun _ => none
    minify := fun s => Except.ok s
    hash := fun _ => "h" }

/-- A custom entry whose `path` is an empty array of sources. -/
def emptySourcesCfg : PolyfillsLoaderConfig :=
  { polyfills := some { custom := [{ name := "empty-sources", path := some (.multi []) }] } }

/-- The artifact produced for `emptySourcesCfg`. -/
def emptySourcesArtifact : PolyfillFile :=
  { name := "empty-sources"
    type := FileType.script
    path := "polyfills/empty-sources.h.js"
    content := ""
    test := none
    initializer := none }

/-- C9 counterexample: a custom entry with a non-empty name but an empty list
of sources passes the name/path validation (a JavaScript array is truthy even
when empty), so the resolution returns an artifact list — with an
empty-content artifact — instead of failing with a validation error. -/
theorem empty_sources_entry_accepted :
    createPolyfillsData emptyFsCtx emptySourcesCfg = Except.ok [emptySourcesArtifact] := rfl

/-- C9 amended: an entry with a missing/empty name, a missing path, or an
empty-string path fails materialization with the validation error, and if
such an entry is in the interpreted list the whole resolution call fails,
whatever other valid entries the list contains.  (An entry whose path is an
empty array of sources, however, passes the truthiness check and yields an
empty-content artifact.) -/
theorem missing_name_or_path_fails (ctx : MaterializeCtx) (cfg : PolyfillsLoaderConfig)
    (e : PolyfillConfig)
    (hbad : e.name = "" ∨ e.path = none ∨ e.path = some (.single "")) :
    materializeOne ctx cfg e = Except.error "A polyfill should have a name and a path property." ∧
    ∀ l, buildPolyfillConfigs cfg = Except.ok l → e ∈ l →
      ∃ m, createPolyfillsData ctx cfg = Except.error m := by
  have hone : materializeOne ctx cfg e =
      Except.error "A polyfill should have a name and a path property." := by
    unfold materializeOne
    rcases hbad with h | h | h
    · rw [if_pos (by rw [h]; simp)]
    · rw [if_pos (by rw [h]; simp [pathIsFalsy])]
    · rw [if_pos (by rw [h]; simp [pathIsFalsy])]
  refine ⟨hone, fun l hb he => ?_⟩
  rcases mapExcept_error_of_mem (materializeOne ctx cfg) he hone with ⟨m, hm⟩
  refine ⟨m, ?_⟩
  unfold createPolyfillsData
  rw [hb, exceptBind_ok, hm]

/-- A custom entry with a name but no path, next to a valid entry. -/
def missingPathCfg : PolyfillsLoaderConfig :=
  { polyfills := some { coreJs := true, custom := [{ name := "no-path" }] } }

theorem missing_name_or_path_fails_witness :
    materializeOne emptyFsCtx missingPathCfg { name := "no-path" } =
      Except.error "A polyfill should have a name and a path property." ∧
    ∀ l, buildPolyfillConfigs missingPathCfg = Except.ok l → { name := "no-path" } ∈ l →
      ∃ m, createPolyfillsData emptyFsCtx missingPathCfg = Except.error m :=
  missing_name_or_path_fails emptyFsCtx missingPathCfg { name := "no-path" }
    (Or.inr (Or.inl rfl))

/-- C10: reading an existing source file yields its content with every line
that begins with the source-map directive — at any position — replaced by an
empty line: the split/replace/join preserves the number of lines (the map is
length-preserving on the split), a line is blanked exactly when it starts
with `//# sourceMappingURL`, and the contents of an array of sources are
joined with no separator. -/
theorem source_map_lines_blanked (ctx : MaterializeCtx) (fp c : String)
    (h : ctx.fs fp = some c) :
    readPolyfillFileContents ctx fp = Except.ok (stripSourceMapUrls c) ∧
    splitLines (stripSourceMapUrls c) = (splitLines c).map stripSourceMapLine ∧
    (splitLines (stripSourceMapUrls c)).length = (splitLines c).length ∧
    (∀ line : String, sourceMapDirective.data.isPrefixOf line.data = true →
      stripSourceMapLine line = "") ∧
    (∀ line : String, sourceMapDirective.data.isPrefixOf line.data = false →
      stripSourceMapLine line = line) ∧
    (∀ fps parts : List String,
      mapExcept (readPolyfillFileContents ctx) fps = Except.ok parts →
      readPolyfillContent ctx (.multi fps) = Except.ok (String.join parts)) := by
  refine ⟨?_, splitLines_stripSourceMapUrls c, ?_, ?_, ?_, ?_⟩
  · rw [readPolyfillFileContents, h]
  · rw [splitLines_stripSourceMapUrls c, List.length_map]
  · intro line hl
    rw [stripSourceMapLine, if_pos hl]
  · intro line hl
    rw [stripSourceMapLine, if_neg (by rw [hl]; simp)]
  · intro fps parts hparts
    rw [readPolyfillContent, hparts, exceptBind_ok]

/-- A file system with one file whose source-map directive line sits in the
middle of the file. -/
def midSourceMapCtx : MaterializeCtx :=
  { fs := fun p => if p = "mid.js" then some "a\n//# sourceMappingURL=x.map\nb" else none
    minify := fun s => Except.ok s
    hash := fun _ => "h" }

theorem source_map_lines_blanked_witness :
    readPolyfillFileContents midSourceMapCtx "mid.js" =
      Except.ok (stripSourceMapUrls "a\n//# sourceMappingURL=x.map\nb") ∧
    splitLines (stripSourceMapUrls "a\n//# sourceMappingURL=x.map\nb") =
      (splitLines "a\n//# sourceMappingURL=x.map\nb").map stripSourceMapLine ∧
    (splitLines (stripSourceMapUrls "a\n//# sourceMappingURL=x.map\nb")).length =
      (splitLines "a\n//# sourceMappingURL=x.map\nb").length ∧
    (∀ line : String, sourceMapDirective.data.isPrefixOf line.data = true →
      stripSourceMapLine line = "") ∧
    (∀ line : String, sourceMapDirective.data.isPrefixOf line.data = false →
      stripSourceMapLine line = line) ∧
    (∀ fps parts : List String,
      mapExcept (readPolyfillFileContents midSourceMapCtx) fps = Except.ok parts →
      readPolyfillContent midSourceMapCtx (.multi fps) = Except.ok (String.join parts)) :=
  source_map_lines_blanked midSourceMapCtx "mid.js" "a\n//# sourceMappingURL=x.map\nb" rfl

/-- The output path in fully right-associated form. -/
theorem outputPath_eq (ctx : MaterializeCtx) (cfg : PolyfillsLoaderConfig) (nm c : String) :
    outputPath ctx cfg nm c =
      polyfillsDirOf cfg ++ "/" ++ nm ++ hashSegmentOf ctx (polyfillsOf cfg) c ++ ".js" := by
  unfold outputPath posixJoin
  apply String.ext
  simp only [String.data_append, List.append_assoc]

/-- With hashing enabled and an injective hasher, distinct contents give
distinct output paths for the same name. -/
theorem hash_inj_path_inj (ctx : MaterializeCtx) (cfg : PolyfillsLoaderConfig)
    (nm c1 c2 : String) (hinj : Function.Injective ctx.hash)
    (hen : (polyfillsOf cfg).hash ≠ some false) (hne : c1 ≠ c2) :
    outputPath ctx cfg nm c1 ≠ outputPath ctx cfg nm c2 := by
  intro heq
  apply hne
  apply hinj
  have hseg : ∀ c, hashSegmentOf ctx (polyfillsOf cfg) c = "." ++ ctx.hash c := by
    intro c
    unfold hashSegmentOf
    rw [if_neg (by simpa using hen)]
  rw [outputPath_eq, outputPath_eq, hseg, hseg] at heq
  have h2 := congrArg String.data heq
  simp only [String.data_append, List.append_assoc] at h2
  have h3 := List.append_cancel_left (List.append_cancel_left
    (List.append_cancel_left (List.append_cancel_left h2)))
  exact String.ext (List.append_cancel_right h3)

/-- C5: a materialized artifact's path is
`<output-dir>/<name><hash-segment>.js`; the directory defaults to
`polyfills` when unconfigured; the hash segment is empty exactly when hashing
is explicitly disabled and otherwise is a dot followed by the hash of the
final content; equal names and contents give equal paths; and with hashing
enabled and an injective hasher, a content change always changes the path. -/
theorem output_path_shape (ctx : MaterializeCtx) (cfg : PolyfillsLoaderConfig)
    (e : PolyfillConfig) (f : PolyfillFile)
    (h : materializeOne ctx cfg e = Except.ok f) :
    f.path = polyfillsDirOf cfg ++ "/" ++ f.name ++
      hashSegmentOf ctx (polyfillsOf cfg) f.content ++ ".js" ∧
    (cfg.polyfillsDir = none → polyfillsDirOf cfg = "polyfills") ∧
    ((polyfillsOf cfg).hash = some false →
      hashSegmentOf ctx (polyfillsOf cfg) f.content = "") ∧
    ((polyfillsOf cfg).hash ≠ some false →
      hashSegmentOf ctx (polyfillsOf cfg) f.content = "." ++ ctx.hash f.content) ∧
    (∀ e2 f2, materializeOne ctx cfg e2 = Except.ok f2 → f2.name = f.name →
      f2.content = f.content → f2.path = f.path) ∧
    (Function.Injective ctx.hash → (polyfillsOf cfg).hash ≠ some false →
      ∀ e2 f2, materializeOne ctx cfg e2 = Except.ok f2 → f2.name = f.name →
        f2.content ≠ f.content → f2.path ≠ f.path) := by
  obtain ⟨hn, hp, ht, hi, hty⟩ := materializeOne_ok_fields h
  refine ⟨?_, ?_, ?_, ?_, ?_, ?_⟩
  · rw [hp, outputPath_eq]
  · intro hd
    unfold polyfillsDirOf
    rw [hd]
  · intro hh
    unfold hashSegmentOf
    rw [if_pos (by simp [hh])]
  · intro hh
    unfold hashSegmentOf
    rw [if_neg (by simpa using hh)]
  · intro e2 f2 h2 hn2 hc2
    obtain ⟨hn2e, hp2, _, _, _⟩ := materializeOne_ok_fields h2
    rw [hp2, hp, hn2, hc2]
  · intro hinj hen e2 f2 h2 hn2 hc2
    obtain ⟨hn2e, hp2, _, _, _⟩ := materializeOne_ok_fields h2
    rw [hp2, hp, hn2]
    exact hash_inj_path_inj ctx cfg f.name f2.content f.content hinj hen hc2

/-- A file system with one custom source file and an injective (identity)
hasher. -/
def identityHashCtx : MaterializeCtx :=
  { fs := fun p => if p = "a.js" then some "abc" else none
    minify := fun s => Except.ok s
    hash := fun s => s }

/-- A configuration with one valid custom entry. -/
def oneCustomCfg : PolyfillsLoaderConfig :=
  { polyfills := some { custom := [{ name := "x", path := some (.single "a.js") }] } }

/-- The artifact produced for `oneCustomCfg` under `identityHashCtx`. -/
def oneCustomArtifact : PolyfillFile :=
  { name := "x"
    type := FileType.script
    path := "polyfills/x.abc.js"
    content := "abc"
    test := none
    initializer := none }

theorem output_path_shape_witness :
    oneCustomArtifact.path = polyfillsDirOf oneCustomCfg ++ "/" ++ oneCustomArtifact.name ++
      hashSegmentOf identityHashCtx (polyfillsOf oneCustomCfg) oneCustomArtifact.content ++
      ".js" ∧
    (oneCustomCfg.polyfillsDir = none → polyfillsDirOf oneCustomCfg = "polyfills") ∧
    ((polyfillsOf oneCustomCfg).hash = some false →
      hashSegmentOf identityHashCtx (polyfillsOf oneCustomCfg) oneCustomArtifact.content = "") ∧
    ((polyfillsOf oneCustomCfg).hash ≠ some false →
      hashSegmentOf identityHashCtx (polyfillsOf oneCustomCfg) oneCustomArtifact.content =
        "." ++ identityHashCtx.hash oneCustomArtifact.content) ∧
    (∀ e2 f2, materializeOne identityHashCtx oneCustomCfg e2 = Except.ok f2 →
      f2.name = oneCustomArtifact.name → f2.content = oneCustomArtifact.content →
      f2.path = oneCustomArtifact.path) ∧
    (Function.Injective identityHashCtx.hash → (polyfillsOf oneCustomCfg).hash ≠ some false →
      ∀ e2 f2, materializeOne identityHashCtx oneCustomCfg e2 = Except.ok f2 →
        f2.name = oneCustomArtifact.name → f2.content ≠ oneCustomArtifact.content →
        f2.path ≠ oneCustomArtifact.path) :=
  output_path_shape identityHashCtx oneCustomCfg
    { name := "x", path := some (.single "a.js") } oneCustomArtifact rfl
